import Mathlib

/-
Verification of the `DetectManyShotJailbreak` validator (validator/main.py).

The validator decides whether a prompt looks like a many-shot jailbreak:
it rejects over-long prompts outright, otherwise splits the prompt into
newline-separated lines, sends each line to a remote text-classification
model, counts how many lines are labelled as instructions, and fails when
that count reaches the configured threshold.

Python strings are modelled as Lean `String` (both measure length in code
points).  The remote model is modelled as a pure function from input text to
a labelled classification result; every function that performs remote calls
additionally returns the trace of texts it submitted, so that claims about
which requests are issued can be stated.
-/

/-- One result of a text-classification request.  The validator only inspects
the `label` field of the returned record. -/
structure ClassResult where
  label : String
deriving DecidableEq

/-- The hosted-inference client: the model endpoint and token it was built
with, together with the (external) behaviour of the remote
text-classification model, modelled as a pure function. -/
structure AsyncInferenceClient where
  model : String
  token : String
  classify : String → ClassResult

/-- `convert_to_bool` from `is_instruction` in validator/main.py: a
classification result counts as an instruction exactly when its label is
`"LABEL_1"`. -/
def convert_to_bool (result : ClassResult) : Bool :=
  result.label == "LABEL_1"

/-- One classification task per input, gathered in order
(`asyncio.gather` over `client.text_classification(input)`); the second
component is the trace of texts submitted to the remote model. -/
def gatherClassify (client : AsyncInferenceClient) :
    List String → List ClassResult × List String
  | [] => ([], [])
  | inp :: rest =>
    let r := client.classify inp
    let res := gatherClassify client rest
    (r :: res.1, inp :: res.2)

/-- `is_instruction` from validator/main.py: classifies every input and
converts each result to a boolean via `convert_to_bool`.  The second
component is the trace of texts submitted to the remote model. -/
def is_instruction (client : AsyncInferenceClient) (inputs : List String) :
    List Bool × List String :=
  let gathered := gatherClassify client inputs
  (gathered.1.map convert_to_bool, gathered.2)

/-- Python `str.split` with a one-character separator: splits at every
occurrence of `sep`, keeping empty segments, and yields `[[]]` on the empty
string. -/
def pySplitChar (sep : Char) : List Char → List (List Char)
  | [] => [[]]
  | c :: cs =>
    if c = sep then [] :: pySplitChar sep cs
    else
      match pySplitChar sep cs with
      | [] => [[c]]
      | l :: ls => (c :: l) :: ls

/-- Python `value.split(sep)` for a one-character separator, on `String`. -/
def pySplit (s : String) (sep : Char) : List String :=
  (pySplitChar sep s.data).map (fun l => String.mk l)

/-- The validator object: threshold and classification client
(`self.num_few_shot_examples`, `self.classification_client`). -/
structure DetectManyShotJailbreak where
  num_few_shot_examples : Int
  classification_client : AsyncInferenceClient

/-- `DetectManyShotJailbreak.detect_many_shot_jailbreak`: splits the value on
newlines, classifies each line, counts the instruction lines, and compares
the count against the threshold.  The second component is the trace of texts
submitted to the remote model. -/
def DetectManyShotJailbreak.detect_many_shot_jailbreak
    (self : DetectManyShotJailbreak) (value : String) : Bool × List String :=
  let lines := pySplit value '\n'
  let res := is_instruction self.classification_client lines
  let num_instructions : Int := (res.1.map (fun r => if r then (1 : Int) else 0)).sum
  (if self.num_few_shot_examples ≤ num_instructions then true else false, res.2)

/-- The host framework's validation result type, as used by this validator:
a pass, or a failure carrying an error message. -/
inductive ValidationResult where
  | PassResult : ValidationResult
  | FailResult (error_message : String) : ValidationResult
deriving DecidableEq

/-- The over-length error message produced by `validate`. -/
def lengthErrorMessage (n : Nat) : String :=
  "Prompt length of " ++ toString n ++
    " is over a max supported length of 15,000 characters."

/-- The many-shot-jailbreak error message produced by `validate`. -/
def jailbreakErrorMessage : String :=
  "The input contains a many-shot jailbreak. " ++
    "Please ensure that the input is not a many-shot jailbreak."

/-- `DetectManyShotJailbreak.validate`: rejects values of length at least
14500 outright, otherwise runs the many-shot-jailbreak detection and fails
exactly when it reports a detection.  The second component is the trace of
texts submitted to the remote model. -/
def DetectManyShotJailbreak.validate (self : DetectManyShotJailbreak)
    (value : String) : ValidationResult × List String :=
  if 14500 ≤ value.length then
    (ValidationResult.FailResult (lengthErrorMessage value.length), [])
  else
    let res := self.detect_many_shot_jailbreak value
    (if res.1 then ValidationResult.FailResult jailbreakErrorMessage
     else ValidationResult.PassResult, res.2)

/-- The Python exceptions `__init__` can raise: `ValueError` for a missing
endpoint, `KeyError` for a missing `HF_API_KEY` environment variable. -/
inductive PyError where
  | valueError (msg : String)
  | keyError (key : String)
deriving DecidableEq

/-- Python truthiness of an optional string: `None` and `""` are falsy. -/
def pyFalsy : Option String → Bool
  | none => true
  | some s => s == ""

/-- `DetectManyShotJailbreak.__init__`: raises `ValueError` when the endpoint
is falsy; otherwise reads `HF_API_KEY` from the environment (raising
`KeyError` when absent) and creates the classification client from the
endpoint, the key and the remote model's behaviour. -/
def DetectManyShotJailbreak.init (behaviour : String → ClassResult)
    (num_few_shot_examples : Int) (_on_fail : Option (String → String))
    (hf_api_key : Option String) (api_endpoint : Option String) :
    Except PyError DetectManyShotJailbreak :=
  if pyFalsy api_endpoint then
    Except.error (PyError.valueError "API endpoint must be provided!")
  else
    match hf_api_key with
    | none => Except.error (PyError.keyError "HF_API_KEY")
    | some key =>
      Except.ok
        { num_few_shot_examples := num_few_shot_examples
          classification_client :=
            { model := api_endpoint.getD "", token := key, classify := behaviour } }

/-- The classification client of a constructed validator, when construction
succeeded. -/
def initClient (r : Except PyError DetectManyShotJailbreak) :
    Option AsyncInferenceClient :=
  match r with
  | Except.ok st => some st.classification_client
  | Except.error _ => none

/-- The number of newline-separated lines of `value` that the classifier
labels as instructions (label `"LABEL_1"`). -/
def instructionLineCount (client : AsyncInferenceClient) (value : String) : Nat :=
  ((pySplit value '\n').filter (fun l => (client.classify l).label == "LABEL_1")).length

/-! ### Basic lemmas about the embedded operations -/

theorem gatherClassify_fst (client : AsyncInferenceClient) (inputs : List String) :
    (gatherClassify client inputs).1 = inputs.map client.classify := by
  induction inputs with
  | nil => rfl
  | cons inp rest ih => simp [gatherClassify, ih]

theorem gatherClassify_snd (client : AsyncInferenceClient) (inputs : List String) :
    (gatherClassify client inputs).2 = inputs := by
  induction inputs with
  | nil => rfl
  | cons inp rest ih => simp [gatherClassify, ih]

theorem is_instruction_fst (client : AsyncInferenceClient) (inputs : List String) :
    (is_instruction client inputs).1 =
      inputs.map (fun s => (client.classify s).label == "LABEL_1") := by
  simp [is_instruction, gatherClassify_fst, convert_to_bool]

theorem is_instruction_snd (client : AsyncInferenceClient) (inputs : List String) :
    (is_instruction client inputs).2 = inputs := by
  simp [is_instruction, gatherClassify_snd]

theorem pySplitChar_ne_nil (sep : Char) (l : List Char) :
    pySplitChar sep l ≠ [] := by
  cases l with
  | nil => simp [pySplitChar]
  | cons c cs =>
    simp only [pySplitChar]
    split
    · simp
    · cases h : pySplitChar sep cs <;> simp

theorem pySplitChar_length (sep : Char) (l : List Char) :
    (pySplitChar sep l).length = l.count sep + 1 := by
  induction l with
  | nil => simp [pySplitChar]
  | cons c cs ih =>
    by_cases hc : c = sep
    · simp [pySplitChar, hc, List.count_cons, ih]
    · cases h : pySplitChar sep cs with
      | nil => exact absurd h (pySplitChar_ne_nil sep cs)
      | cons a as =>
        rw [h] at ih
        simp [pySplitChar, hc, h, List.count_cons]
        simpa using ih

theorem pySplitChar_append_sep (sep : Char) (l : List Char) :
    pySplitChar sep (l ++ [sep]) = pySplitChar sep l ++ [[]] := by
  induction l with
  | nil => simp [pySplitChar]
  | cons c cs ih =>
    by_cases hc : c = sep
    · simp [pySplitChar, hc, ih]
    · cases h : pySplitChar sep cs with
      | nil => exact absurd h (pySplitChar_ne_nil sep cs)
      | cons a as =>
        rw [h] at ih
        simp [pySplitChar, hc, h, ih]

theorem pySplit_length (s : String) (sep : Char) :
    (pySplit s sep).length = s.data.count sep + 1 := by
  simp [pySplit, pySplitChar_length]

theorem sum_indicator {α : Type} (p : α → Bool) (l : List α) :
    ((l.map p).map (fun r => if r then (1 : Int) else 0)).sum =
      ((l.filter p).length : Int) := by
  induction l with
  | nil => simp
  | cons a l ih =>
    simp only [List.map_map] at ih
    by_cases h : p a
    · simp [h, List.filter_cons, ih]
      omega
    · simp [h, List.filter_cons, ih]

theorem detect_snd (self : DetectManyShotJailbreak) (value : String) :
    (self.detect_many_shot_jailbreak value).2 = pySplit value '\n' := by
  simp [DetectManyShotJailbreak.detect_many_shot_jailbreak, is_instruction_snd]

theorem detect_fst_iff (self : DetectManyShotJailbreak) (value : String) :
    (self.detect_many_shot_jailbreak value).1 = true ↔
      self.num_few_shot_examples ≤
        (instructionLineCount self.classification_client value : Int) := by
  simp only [DetectManyShotJailbreak.detect_many_shot_jailbreak, is_instruction_fst,
    instructionLineCount, sum_indicator]
  split <;> simp_all

theorem detect_fst_false_iff (self : DetectManyShotJailbreak) (value : String) :
    (self.detect_many_shot_jailbreak value).1 = false ↔
      (instructionLineCount self.classification_client value : Int) <
        self.num_few_shot_examples := by
  rw [← Bool.not_eq_true, detect_fst_iff]
  omega

theorem validate_fst (self : DetectManyShotJailbreak) (value : String) :
    (self.validate value).1 =
      (if 14500 ≤ value.length then
        ValidationResult.FailResult (lengthErrorMessage value.length)
      else if self.num_few_shot_examples ≤
          (instructionLineCount self.classification_client value : Int) then
        ValidationResult.FailResult jailbreakErrorMessage
      else ValidationResult.PassResult) := by
  by_cases hlen : 14500 ≤ value.length
  · simp [DetectManyShotJailbreak.validate, hlen]
  · by_cases hc : self.num_few_shot_examples ≤
        (instructionLineCount self.classification_client value : Int)
    · have hdet := (detect_fst_iff self value).2 hc
      simp [DetectManyShotJailbreak.validate, hlen, hc, hdet]
    · have hdet := (detect_fst_false_iff self value).2 (by omega)
      simp [DetectManyShotJailbreak.validate, hlen, hc, hdet]

theorem validate_snd_short (self : DetectManyShotJailbreak) (value : String)
    (h : ¬ 14500 ≤ value.length) :
    (self.validate value).2 = pySplit value '\n' := by
  simp [DetectManyShotJailbreak.validate, h, detect_snd]

/-! ### Concrete fixtures used by the witness theorems -/

/-- A remote model that labels every input as an instruction. -/
def labelOneClient : AsyncInferenceClient :=
  { model := "m", token := "t", classify := fun _ => { label := "LABEL_1" } }

/-- A remote model that labels no input as an instruction. -/
def labelZeroClient : AsyncInferenceClient :=
  { model := "m", token := "t", classify := fun _ => { label := "LABEL_0" } }

/-- A validator with threshold 1 whose model labels everything `LABEL_1`. -/
def vOne : DetectManyShotJailbreak :=
  { num_few_shot_examples := 1, classification_client := labelOneClient }

/-- A validator with threshold 0 whose model labels nothing `LABEL_1`. -/
def vZero : DetectManyShotJailbreak :=
  { num_few_shot_examples := 0, classification_client := labelZeroClient }

/-- A concrete string of length exactly 14500. -/
def longValue : String := String.mk (List.replicate 14500 'a')

theorem longValue_length : longValue.length = 14500 := by
  have h : longValue.length = (List.replicate 14500 'a').length := rfl
  rw [h, List.length_replicate]

/-! ### Claim theorems -/

/-- C1: for every string value, `validate` returns a `FailResult` if and only
if the value's length is at least 14500 or the number of newline-separated
lines the classifier labels as instructions is at least
`num_few_shot_examples`; in every other case it returns `PassResult`. -/
theorem C1_validate_fail_iff (self : DetectManyShotJailbreak) (value : String) :
    ((∃ msg, (self.validate value).1 = ValidationResult.FailResult msg) ↔
      (14500 ≤ value.length ∨
        self.num_few_shot_examples ≤
          (instructionLineCount self.classification_client value : Int)))
    ∧ ((self.validate value).1 = ValidationResult.PassResult ↔
      (value.length < 14500 ∧
        (instructionLineCount self.classification_client value : Int) <
          self.num_few_shot_examples)) := by
  rw [validate_fst]
  split_ifs with h1 h2 <;> simp <;> omega

/-- C2: `detect_many_shot_jailbreak` returns `true` if and only if the count
of newline-separated lines classified as instructions is at least
`num_few_shot_examples` (reaching the threshold counts as a detection), and
returns `false` otherwise. -/
theorem C2_detect_iff (self : DetectManyShotJailbreak) (value : String) :
    ((self.detect_many_shot_jailbreak value).1 = true ↔
      self.num_few_shot_examples ≤
        (instructionLineCount self.classification_client value : Int))
    ∧ ((self.detect_many_shot_jailbreak value).1 = false ↔
      (instructionLineCount self.classification_client value : Int) <
        self.num_few_shot_examples) :=
  ⟨detect_fst_iff self value, detect_fst_false_iff self value⟩

/-- C3: `is_instruction` issues exactly one classification request per input,
in order, and returns a list of booleans of the same length whose i-th entry
is `true` exactly when the i-th result's label is `"LABEL_1"`. -/
theorem C3_is_instruction_spec (client : AsyncInferenceClient)
    (inputs : List String) :
    (is_instruction client inputs).2 = inputs
    ∧ (is_instruction client inputs).1.length = inputs.length
    ∧ ∀ i : Nat, (is_instruction client inputs).1[i]? =
        (inputs[i]?).map (fun s => (client.classify s).label == "LABEL_1") := by
  refine ⟨is_instruction_snd client inputs, ?_, ?_⟩ <;>
    simp [is_instruction_fst]

/-- C4: the length check precedes classification: on a value of length at
least 14500, `validate` returns the over-length `FailResult` with an empty
request trace, and its result does not depend on the classifier. -/
theorem C4_length_precedes_classification
    (self other : DetectManyShotJailbreak) (value : String)
    (h : 14500 ≤ value.length) :
    self.validate value =
      (ValidationResult.FailResult (lengthErrorMessage value.length), [])
    ∧ self.validate value = other.validate value := by
  simp [DetectManyShotJailbreak.validate, h]

theorem C4_length_precedes_classification_witness :
    vOne.validate longValue =
      (ValidationResult.FailResult (lengthErrorMessage longValue.length), [])
    ∧ vOne.validate longValue = vZero.validate longValue :=
  C4_length_precedes_classification vOne vZero longValue
    (by rw [longValue_length])

/-- C5: on a value under the length limit, the texts submitted for
classification are exactly its newline-separated segments, whose number is
the number of newline characters plus one; appending a final newline adds a
final empty classified segment, and the empty string yields exactly one
segment. -/
theorem C5_lines_submitted (self : DetectManyShotJailbreak) (value : String)
    (h : value.length < 14500) :
    (self.validate value).2 = pySplit value '\n'
    ∧ (self.validate value).2.length = value.data.count '\n' + 1
    ∧ pySplit (value ++ "\n") '\n' = pySplit value '\n' ++ [""]
    ∧ pySplit "" '\n' = [""] := by
  have hlen : ¬ 14500 ≤ value.length := by omega
  refine ⟨validate_snd_short self value hlen, ?_, ?_, rfl⟩
  · rw [validate_snd_short self value hlen, pySplit_length]
  · have hd : (value ++ "\n").data = value.data ++ ['\n'] := by
      simp [String.data_append]
    simp [pySplit, hd, pySplitChar_append_sep]

theorem C5_lines_submitted_witness :
    (vOne.validate "a\nb").2 = pySplit "a\nb" '\n'
    ∧ (vOne.validate "a\nb").2.length = ("a\nb" : String).data.count '\n' + 1
    ∧ pySplit ("a\nb" ++ "\n") '\n' = pySplit "a\nb" '\n' ++ [""]
    ∧ pySplit "" '\n' = [""] :=
  C5_lines_submitted vOne "a\nb" (by decide)

/-- C6: every result of `validate` is a `PassResult` or a `FailResult`, and
every `FailResult` carries one of the two non-empty error messages. -/
theorem C6_result_shape (self : DetectManyShotJailbreak) (value : String) :
    (self.validate value).1 = ValidationResult.PassResult
    ∨ ((self.validate value).1 =
          ValidationResult.FailResult (lengthErrorMessage value.length)
        ∧ 0 < (lengthErrorMessage value.length).length)
    ∨ ((self.validate value).1 =
          ValidationResult.FailResult jailbreakErrorMessage
        ∧ 0 < jailbreakErrorMessage.length) := by
  have h1 : 0 < (lengthErrorMessage value.length).length := by
    have h17 : ("Prompt length of " : String).length = 17 := rfl
    simp [lengthErrorMessage, String.length_append, h17]
  have h2 : 0 < jailbreakErrorMessage.length := by decide
  rw [validate_fst]
  split_ifs <;> simp [h1, h2]

/-- C7: constructing the validator with a falsy endpoint (`None` or `""`)
raises `ValueError` for every threshold, `on_fail` and environment, and the
classification client is created (from the endpoint) exactly when the
endpoint is truthy and the API key is present. -/
theorem C7_init_value_error (behaviour : String → ClassResult) (t : Int)
    (onFail : Option (String → String)) (key : Option String)
    (ep : Option String) :
    ((∃ msg, DetectManyShotJailbreak.init behaviour t onFail key ep =
        Except.error (PyError.valueError msg)) ↔ pyFalsy ep = true)
    ∧ initClient (DetectManyShotJailbreak.init behaviour t onFail key ep) =
        (if pyFalsy ep then none
         else key.map (fun k =>
           { model := ep.getD "", token := k, classify := behaviour })) := by
  by_cases hf : pyFalsy ep = true
  · simp [DetectManyShotJailbreak.init, hf, initClient]
  · cases key <;> simp [DetectManyShotJailbreak.init, hf, initClient]

/-- C8: the effective cutoff is 14500, below the 15,000 stated in the error
text: a value with length in [14500, 15000) is rejected with a message
claiming the prompt is over a max supported length of 15,000 characters. -/
theorem C8_cutoff_below_message (self : DetectManyShotJailbreak)
    (value : String) (h1 : 14500 ≤ value.length)
    (h2 : value.length < 15000) :
    (self.validate value).1 =
      ValidationResult.FailResult (lengthErrorMessage value.length)
    ∧ lengthErrorMessage value.length =
        "Prompt length of " ++ toString value.length ++
          " is over a max supported length of 15,000 characters."
    ∧ value.length < 15000 :=
  ⟨by simp [DetectManyShotJailbreak.validate, h1], rfl, h2⟩

theorem C8_cutoff_below_message_witness :
    (vOne.validate longValue).1 =
      ValidationResult.FailResult (lengthErrorMessage longValue.length)
    ∧ lengthErrorMessage longValue.length =
        "Prompt length of " ++ toString longValue.length ++
          " is over a max supported length of 15,000 characters."
    ∧ longValue.length < 15000 :=
  C8_cutoff_below_message vOne longValue (by rw [longValue_length])
    (by rw [longValue_length]; norm_num)

/-- C9: detection is antitone in the threshold: a detection at threshold `t`
persists at every threshold `t' ≤ t`; with a non-positive threshold every
value is detected, so `validate` fails every value under the length limit. -/
theorem C9_threshold_antitone (self : DetectManyShotJailbreak)
    (value : String) :
    (∀ t' : Int, t' ≤ self.num_few_shot_examples →
      (self.detect_many_shot_jailbreak value).1 = true →
      (({ self with num_few_shot_examples := t'
          } : DetectManyShotJailbreak).detect_many_shot_jailbreak value).1
        = true)
    ∧ (self.num_few_shot_examples ≤ 0 →
        (self.detect_many_shot_jailbreak value).1 = true)
    ∧ (self.num_few_shot_examples ≤ 0 → value.length < 14500 →
        (self.validate value).1 =
          ValidationResult.FailResult jailbreakErrorMessage) := by
  refine ⟨?_, ?_, ?_⟩
  · intro t' hle hdet
    rw [detect_fst_iff] at hdet ⊢
    exact le_trans hle hdet
  · intro h0
    rw [detect_fst_iff]
    have hnn : (0 : Int) ≤
        (instructionLineCount self.classification_client value : Int) :=
      Int.natCast_nonneg _
    omega
  · intro h0 hlen
    rw [validate_fst]
    have hnn : (0 : Int) ≤
        (instructionLineCount self.classification_client value : Int) :=
      Int.natCast_nonneg _
    split_ifs with ha hb
    · omega
    · rfl
    · omega

theorem C9_threshold_antitone_witness :
    (({ vOne with num_few_shot_examples := (0 : Int)
        } : DetectManyShotJailbreak).detect_many_shot_jailbreak "x").1 = true
    ∧ (vZero.detect_many_shot_jailbreak "x").1 = true
    ∧ (vZero.validate "x").1 =
        ValidationResult.FailResult jailbreakErrorMessage :=
  ⟨(C9_threshold_antitone vOne "x").1 0 (by decide) (by decide),
   (C9_threshold_antitone vZero "x").2.1 (by decide),
   (C9_threshold_antitone vZero "x").2.2 (by decide) (by decide)⟩


